import Mathlib

/-!
Shallow embedding of the uptime monitor's state-transition and alerting
engine (`src/monitor.py`): the per-URL entry record, the transition applied
to one probe outcome, state-file loading with the schema guard, the main
per-run loop with alert batching, snapshot saving and the exit code.
Machine integers are modelled as `Int` (Python integers are unbounded);
the consecutive counters are `Nat` (they start at 0 and are only
incremented or reset).
-/

set_option autoImplicit false

namespace UptimeMonitor

/-- Status of a monitored URL: the `status` field of an entry, `"up"` or
`"down"` in the JSON snapshot. -/
inductive Status where
  | up
  | down
deriving DecidableEq

/-- MonitoringEntry: one per URL, persisted in the state file.
Mirrors `empty_entry` in `monitor.py`: `status`, `fail` (consecutive
failures), `ok` (consecutive successes), `last_change` (epoch of last
status transition), `last_down_alert` (epoch of last DOWN alert or
reminder). -/
structure Entry where
  status : Status
  fail : Nat
  ok : Nat
  last_change : Int
  last_down_alert : Int
deriving DecidableEq

/-- Configuration knobs read from the environment in `monitor.py`:
`FAILURE_THRESHOLD`, `REMIND_MIN` and `STATE_SCHEMA_VERSION`. -/
structure Config where
  failureThreshold : Int
  remindMin : Int
  schemaVersion : String
deriving DecidableEq

/-- The source clamps the threshold with `max(1, int(...))`. -/
def clampThreshold (raw : Int) : Int :=
  max 1 raw

/-- Kind of an alert decided by one transition. -/
inductive AlertKind where
  | down
  | reminder
  | recovery
deriving DecidableEq

/-- An alert: its kind and the text appended to the corresponding batch. -/
structure Alert where
  kind : AlertKind
  text : String
deriving DecidableEq

/-- Default entry for a URL never seen before, `empty_entry()` in the
source. -/
def empty_entry : Entry :=
  { status := Status.up, fail := 0, ok := 0, last_change := 0, last_down_alert := 0 }

/-- Transition of one entry on one probe outcome, the body of the per-URL
loop in `main` (monitor.py lines 99-118): on success increment `ok`, reset
`fail`, and recover if previously down (alert text `u + " recovered ✅"`);
on failure increment `fail`, reset `ok`, transition to down when the
incremented failure count reaches the threshold (alert text = probe
message), and while already down emit a reminder (probe message +
`" (still down)"`) when `REMIND_MIN > 0` and enough time elapsed since the
last down alert. -/
def transition (cfg : Config) (u : String) (e : Entry) (probeOk : Bool)
    (msg : String) (now : Int) : Entry × Option Alert :=
  if probeOk then
    let e1 : Entry := { e with ok := e.ok + 1, fail := 0 }
    if e1.status = Status.down then
      ({ e1 with status := Status.up, last_change := now },
        some { kind := AlertKind.recovery, text := u ++ " recovered ✅" })
    else
      (e1, none)
  else
    let e1 : Entry := { e with fail := e.fail + 1, ok := 0 }
    if e1.status ≠ Status.down then
      if (e1.fail : Int) ≥ cfg.failureThreshold then
        ({ e1 with status := Status.down, last_change := now, last_down_alert := now },
          some { kind := AlertKind.down, text := msg })
      else
        (e1, none)
    else
      if cfg.remindMin > 0 ∧ now - e1.last_down_alert ≥ cfg.remindMin * 60 then
        ({ e1 with last_down_alert := now },
          some { kind := AlertKind.reminder, text := msg ++ " (still down)" })
      else
        (e1, none)

/-- Parsed content of a state file that `json.load` accepted: the value of
`data.get("_schema")` (absent key gives `none`) and of `data.get("urls", {})`
(absent key gives the empty mapping, modelled by `none`). -/
structure StateData where
  schema : Option String
  urls : Option (List (String × Entry))
deriving DecidableEq

/-- Outcome of trying to read and parse the state file: `failure` covers a
missing, unreadable or malformed file (any exception in `load_state`);
`success` carries the parsed data. -/
inductive FileRead where
  | failure
  | success (d : StateData)
deriving DecidableEq

/-- Mirror of `load_state`: an exception yields the empty mapping, a schema
mismatch (including an absent `_schema` key) yields the empty mapping,
otherwise the `urls` mapping (defaulted to empty). -/
def load_state (cfg : Config) (r : FileRead) : List (String × Entry) :=
  match r with
  | FileRead.failure => []
  | FileRead.success d =>
      if d.schema ≠ some cfg.schemaVersion then [] else d.urls.getD []

/-- The snapshot written by `save_state`: schema tag, `saved_at` epoch and
the full urls mapping. -/
structure Snapshot where
  schema : String
  saved_at : Int
  urls : List (String × Entry)
deriving DecidableEq

/-- Mirror of `save_state`: the payload written to the state file. -/
def save_state (cfg : Config) (saveTime : Int) (state : List (String × Entry)) : Snapshot :=
  { schema := cfg.schemaVersion, saved_at := saveTime, urls := state }

/-- Association-list lookup, modelling `dict.get` on the urls mapping. -/
def lookupEntry : List (String × Entry) → String → Option Entry
  | [], _ => none
  | (k, v) :: rest, u => if k = u then some v else lookupEntry rest u

/-- Association-list update, modelling `curr[u] = entry` on a Python dict:
an existing key keeps its position, a new key is appended. -/
def setEntry : List (String × Entry) → String → Entry → List (String × Entry)
  | [], u, v => [(u, v)]
  | (k, w) :: rest, u, v =>
      if k = u then (u, v) :: rest else (k, w) :: setEntry rest u v

/-- Accumulator of the per-URL loop in `main`: the `curr` mapping being
built and the two alert batches. -/
structure LoopState where
  curr : List (String × Entry)
  down_alerts : List String
  recover_alerts : List String
deriving DecidableEq

/-- One iteration of the loop in `main`: fetch the previous entry (default
`empty_entry`), probe, apply the transition, store the new entry in `curr`
and route the alert text: RECOVERY into the recovery batch, DOWN and
REMINDER into the down batch. -/
def processUrl (cfg : Config) (prev : List (String × Entry))
    (probe : String → Bool × String) (now : Int) (st : LoopState) (u : String) :
    LoopState :=
  let entry := (lookupEntry prev u).getD empty_entry
  let pr := probe u
  let r := transition cfg u entry pr.1 pr.2 now
  { curr := setEntry st.curr u r.1,
    down_alerts := st.down_alerts ++
      (match r.2 with
        | some a => if a.kind = AlertKind.recovery then [] else [a.text]
        | none => []),
    recover_alerts := st.recover_alerts ++
      (match r.2 with
        | some a => if a.kind = AlertKind.recovery then [a.text] else []
        | none => []) }

/-- The per-URL loop of `main`, iterating the configured URLs in order. -/
def runLoop (cfg : Config) (prev : List (String × Entry))
    (probe : String → Bool × String) (now : Int) :
    List String → LoopState → LoopState
  | [], st => st
  | u :: rest, st => runLoop cfg prev probe now rest (processUrl cfg prev probe now st u)

/-- Observable result of one run of `main`: the process exit code, the
snapshot written (none when nothing was written), the URLs probed, and the
two alert batches. -/
structure RunResult where
  exitCode : Nat
  written : Option Snapshot
  probed : List String
  down_alerts : List String
  recover_alerts : List String
deriving DecidableEq

/-- Mirror of `main` (monitor.py lines 82-133): exit 2 immediately when no
URLs are configured (no probing, no state write); otherwise load the
previous state, process each URL, save the full `curr` mapping, and exit 1
when any entry is down, 0 otherwise. `now` is the epoch taken at the start
of the run, `saveTime` the epoch taken inside `save_state`. -/
def main (cfg : Config) (urls : List String) (file : FileRead)
    (probe : String → Bool × String) (now saveTime : Int) : RunResult :=
  if urls = [] then
    { exitCode := 2, written := none, probed := [], down_alerts := [], recover_alerts := [] }
  else
    let prev := load_state cfg file
    let st := runLoop cfg prev probe now urls { curr := [], down_alerts := [], recover_alerts := [] }
    let snap := save_state cfg saveTime st.curr
    { exitCode := if st.curr.any (fun p => decide (p.2.status = Status.down)) then 1 else 0,
      written := some snap,
      probed := urls,
      down_alerts := st.down_alerts,
      recover_alerts := st.recover_alerts }

/-- Lookup of a URL's entry in the snapshot a run wrote. -/
def snapLookup (r : RunResult) (u : String) : Option Entry :=
  match r.written with
  | none => none
  | some s => lookupEntry s.urls u

/-- Whether the written snapshot records any DOWN entry. -/
def snapHasDown (o : Option Snapshot) : Bool :=
  match o with
  | none => false
  | some s => s.urls.any (fun p => decide (p.2.status = Status.down))

/-- The state file a second run would read after a first run: the snapshot
the first run wrote, serialized and parsed back. -/
def secondRunFile (r : RunResult) : FileRead :=
  match r.written with
  | none => FileRead.failure
  | some s => FileRead.success { schema := some s.schema, urls := some s.urls }

/-- The urls mapping the run writes. -/
def runCurr (cfg : Config) (urls : List String) (file : FileRead)
    (probe : String → Bool × String) (now : Int) : List (String × Entry) :=
  (runLoop cfg (load_state cfg file) probe now urls
    { curr := [], down_alerts := [], recover_alerts := [] }).curr

/-- A probe outcome function for which every URL succeeds. -/
def probeAllOk (w : String) : Bool × String :=
  (true, w ++ " OK (200)")

/-- A probe outcome function for which every URL fails. -/
def probeAllFail (w : String) : Bool × String :=
  (false, w ++ " returned 500")

/-- A probe outcome function for which only the URL "a" succeeds. -/
def probeMixed (w : String) : Bool × String :=
  (decide (w = "a"), w ++ " checked")

/-- Trace of repeated failed probes: the list of (entry, alert) results of
applying the transition to each failed probe `(message, time)` in turn. -/
def failTrace (cfg : Config) (u : String) : Entry → List (String × Int) →
    List (Entry × Option Alert)
  | _, [] => []
  | e, p :: rest =>
      let r := transition cfg u e false p.1 p.2
      r :: failTrace cfg u r.1 rest

/-! Branch lemmas for `transition`: one per control path of the source's
per-URL block. -/

/-- A successful probe on an UP entry only bumps the success counter and
resets the failure counter. -/
theorem transition_ok_up (cfg : Config) (u : String) (e : Entry) (msg : String) (now : Int)
    (h : e.status = Status.up) :
    transition cfg u e true msg now = ({ e with ok := e.ok + 1, fail := 0 }, none) := by
  simp [transition, h]

/-- A successful probe on a DOWN entry recovers it and emits the recovery
alert. -/
theorem transition_ok_down (cfg : Config) (u : String) (e : Entry) (msg : String) (now : Int)
    (h : e.status = Status.down) :
    transition cfg u e true msg now =
      ({ e with ok := e.ok + 1, fail := 0, status := Status.up, last_change := now },
        some { kind := AlertKind.recovery, text := u ++ " recovered ✅" }) := by
  simp [transition, h]

/-- A failed probe on an UP entry whose incremented failure count reaches
the threshold transitions it to DOWN and emits the DOWN alert. -/
theorem transition_fail_up_hit (cfg : Config) (u : String) (e : Entry) (msg : String) (now : Int)
    (h : e.status = Status.up) (hth : ((e.fail + 1 : Nat) : Int) ≥ cfg.failureThreshold) :
    transition cfg u e false msg now =
      ({ e with fail := e.fail + 1, ok := 0, status := Status.down, last_change := now, last_down_alert := now },
        some { kind := AlertKind.down, text := msg }) := by
  simp [transition, h, hth]
  omega

/-- A failed probe on an UP entry below the threshold only counts. -/
theorem transition_fail_up_miss (cfg : Config) (u : String) (e : Entry) (msg : String) (now : Int)
    (h : e.status = Status.up) (hth : ¬ ((e.fail + 1 : Nat) : Int) ≥ cfg.failureThreshold) :
    transition cfg u e false msg now = ({ e with fail := e.fail + 1, ok := 0 }, none) := by
  simp [transition, h, hth]
  omega

/-- A failed probe on a DOWN entry with the reminder condition met emits a
reminder and stamps the alert time. -/
theorem transition_fail_down_remind (cfg : Config) (u : String) (e : Entry) (msg : String)
    (now : Int) (h : e.status = Status.down)
    (hc : cfg.remindMin > 0 ∧ now - e.last_down_alert ≥ cfg.remindMin * 60) :
    transition cfg u e false msg now =
      ({ e with fail := e.fail + 1, ok := 0, last_down_alert := now },
        some { kind := AlertKind.reminder, text := msg ++ " (still down)" }) := by
  simp [transition, h, hc.1, hc.2]

/-- A failed probe on a DOWN entry with the reminder condition not met only
counts. -/
theorem transition_fail_down_quiet (cfg : Config) (u : String) (e : Entry) (msg : String)
    (now : Int) (h : e.status = Status.down)
    (hc : ¬ (cfg.remindMin > 0 ∧ now - e.last_down_alert ≥ cfg.remindMin * 60)) :
    transition cfg u e false msg now = ({ e with fail := e.fail + 1, ok := 0 }, none) := by
  simp [transition, h, hc]

/-- While an entry is DOWN, a failed probe keeps it DOWN, increments the
failure counter, resets the success counter, preserves the transition
time, moves the alert time only to `now` if at all, and never emits a
DOWN-kind alert. -/
theorem transition_fail_down_facts (cfg : Config) (u : String) (e : Entry) (msg : String)
    (now : Int) (hd : e.status = Status.down) :
    (transition cfg u e false msg now).1.status = Status.down ∧
    (transition cfg u e false msg now).1.fail = e.fail + 1 ∧
    (transition cfg u e false msg now).1.ok = 0 ∧
    (transition cfg u e false msg now).1.last_change = e.last_change ∧
    ((transition cfg u e false msg now).1.last_down_alert = e.last_down_alert ∨
      (transition cfg u e false msg now).1.last_down_alert = now) ∧
    (transition cfg u e false msg now).2.map Alert.kind ≠ some AlertKind.down := by
  by_cases hc : cfg.remindMin > 0 ∧ now - e.last_down_alert ≥ cfg.remindMin * 60
  · rw [transition_fail_down_remind cfg u e msg now hd hc]
    exact ⟨hd, rfl, rfl, rfl, Or.inr rfl, by simp⟩
  · rw [transition_fail_down_quiet cfg u e msg now hd hc]
    exact ⟨hd, rfl, rfl, rfl, Or.inl rfl, by simp⟩

/-- Along a trace of failed probes starting from a DOWN entry, the status
stays DOWN and no DOWN-kind alert is ever emitted. -/
theorem failTrace_down (cfg : Config) (u : String) :
    ∀ (l : List (String × Int)) (e : Entry), e.status = Status.down →
      ∀ (i : Nat) (r : Entry × Option Alert), (failTrace cfg u e l).get? i = some r →
        r.1.status = Status.down ∧ r.2.map Alert.kind ≠ some AlertKind.down := by
  intro l
  induction l with
  | nil =>
    intro e _ i r hr
    simp [failTrace] at hr
  | cons q rest ih =>
    intro e hd i r hr
    have hfacts := transition_fail_down_facts cfg u e q.1 q.2 hd
    cases i with
    | zero =>
      simp [failTrace] at hr
      exact hr ▸ ⟨hfacts.1, hfacts.2.2.2.2.2⟩
    | succ i =>
      simp only [failTrace, List.get?_cons_succ] at hr
      exact ih (transition cfg u e false q.1 q.2).1 hfacts.1 i r hr

/-- Failure counting from an UP entry with `j` accumulated failures, for a
threshold `k`: along a run of consecutive failed probes the DOWN alert
fires exactly on the probe that brings the failure count to `k`, carrying
that probe's message and stamping both timestamps, it fires on no other
probe, and from that probe on the status is DOWN. -/
theorem failTrace_up_count (cfg : Config) (u : String) (k : Nat)
    (hft : cfg.failureThreshold = (k : Int)) :
    ∀ (l : List (String × Int)) (e : Entry) (j : Nat), e.status = Status.up → e.fail = j →
      j < k →
      ∀ (i : Nat) (r : Entry × Option Alert) (p : String × Int),
        (failTrace cfg u e l).get? i = some r → l.get? i = some p →
        (i + 1 = k - j →
          r.2 = some { kind := AlertKind.down, text := p.1 } ∧
          r.1.status = Status.down ∧ r.1.last_change = p.2 ∧ r.1.last_down_alert = p.2) ∧
        (i + 1 ≠ k - j → r.2.map Alert.kind ≠ some AlertKind.down) ∧
        (k - j ≤ i + 1 → r.1.status = Status.down) := by
  intro l
  induction l with
  | nil =>
    intro e j _ _ _ i r p hr hp
    simp [failTrace] at hr
  | cons q rest ih =>
    intro e j hs hf hj i r p hr hp
    cases i with
    | zero =>
      simp [failTrace] at hr
      simp at hp
      by_cases hth : j + 1 = k
      · have hth' : ((e.fail + 1 : Nat) : Int) ≥ cfg.failureThreshold := by
          rw [hft, hf]
          omega
        rw [transition_fail_up_hit cfg u e q.1 q.2 hs hth'] at hr
        subst hp
        refine hr ▸ ⟨fun _ => ⟨rfl, rfl, rfl, rfl⟩, fun h => absurd (by omega) h, fun _ => rfl⟩
      · have hth' : ¬ ((e.fail + 1 : Nat) : Int) ≥ cfg.failureThreshold := by
          rw [hft, hf]
          omega
        rw [transition_fail_up_miss cfg u e q.1 q.2 hs hth'] at hr
        refine hr ▸ ⟨fun h => absurd h (by omega), fun _ => by simp, fun h => absurd h (by omega)⟩
    | succ i =>
      simp only [failTrace, List.get?_cons_succ] at hr
      simp only [List.get?_cons_succ] at hp
      by_cases hth : j + 1 = k
      · have hth' : ((e.fail + 1 : Nat) : Int) ≥ cfg.failureThreshold := by
          rw [hft, hf]
          omega
        have hdown : (transition cfg u e false q.1 q.2).1.status = Status.down := by
          rw [transition_fail_up_hit cfg u e q.1 q.2 hs hth']
        have h2 := failTrace_down cfg u rest _ hdown i r hr
        exact ⟨fun h => absurd h (by omega), fun _ => h2.2, fun _ => h2.1⟩
      · have hth' : ¬ ((e.fail + 1 : Nat) : Int) ≥ cfg.failureThreshold := by
          rw [hft, hf]
          omega
        have hup : (transition cfg u e false q.1 q.2).1.status = Status.up := by
          rw [transition_fail_up_miss cfg u e q.1 q.2 hs hth']
          exact hs
        have hfail : (transition cfg u e false q.1 q.2).1.fail = j + 1 := by
          rw [transition_fail_up_miss cfg u e q.1 q.2 hs hth']
          simp [hf]
        have h3 := ih (transition cfg u e false q.1 q.2).1 (j + 1) hup hfail (by omega) i r p hr hp
        exact ⟨fun h => h3.1 (by omega), fun h => h3.2.1 (by omega), fun h => h3.2.2 (by omega)⟩

/-- C1: for every threshold `k ≥ 1`, starting from an UP entry with zero
consecutive failures, along any run of consecutive failed probes the DOWN
alert is emitted precisely on the k-th failure, carrying that probe's
message, with both `last_change` and `last_down_alert` set to that probe's
time; no DOWN alert is emitted on any earlier or later failure, and from
the k-th failure on the entry stays DOWN. -/
theorem C1_threshold_alert (cfg : Config) (u : String) (k : Nat) (hk : 1 ≤ k)
    (hft : cfg.failureThreshold = (k : Int)) (e : Entry)
    (hs : e.status = Status.up) (hf : e.fail = 0)
    (l : List (String × Int)) (i : Nat) (r : Entry × Option Alert) (p : String × Int)
    (hr : (failTrace cfg u e l).get? i = some r) (hp : l.get? i = some p) :
    (i + 1 = k →
      r.2 = some { kind := AlertKind.down, text := p.1 } ∧
      r.1.status = Status.down ∧ r.1.last_change = p.2 ∧ r.1.last_down_alert = p.2) ∧
    (i + 1 ≠ k → r.2.map Alert.kind ≠ some AlertKind.down) ∧
    (k ≤ i + 1 → r.1.status = Status.down) := by
  have h := failTrace_up_count cfg u k hft l e 0 hs hf (by omega) i r p hr hp
  simpa using h

/-- Witness for C1 with threshold 3 and four consecutive failed probes:
the DOWN alert fires on the third. -/
theorem C1_threshold_alert_witness :
    1 ≤ 3 ∧
    (⟨3, 10, "v2"⟩ : Config).failureThreshold = ((3 : Nat) : Int) ∧
    empty_entry.status = Status.up ∧
    empty_entry.fail = 0 ∧
    (failTrace ⟨3, 10, "v2"⟩ "u" empty_entry [("a", 5), ("b", 6), ("c", 7), ("d", 8)]).get? 2 =
      some ((⟨Status.down, 3, 0, 7, 7⟩ : Entry), some { kind := AlertKind.down, text := "c" }) ∧
    ([("a", 5), ("b", 6), ("c", 7), ("d", 8)] : List (String × Int)).get? 2 = some ("c", 7) ∧
    ((2 + 1 = 3 →
        (some { kind := AlertKind.down, text := "c" } : Option Alert) =
          some { kind := AlertKind.down, text := (("c", (7 : Int)) : String × Int).1 } ∧
        (⟨Status.down, 3, 0, 7, 7⟩ : Entry).status = Status.down ∧
        (⟨Status.down, 3, 0, 7, 7⟩ : Entry).last_change = (("c", (7 : Int)) : String × Int).2 ∧
        (⟨Status.down, 3, 0, 7, 7⟩ : Entry).last_down_alert = (("c", (7 : Int)) : String × Int).2) ∧
      (2 + 1 ≠ 3 →
        (some { kind := AlertKind.down, text := "c" } : Option Alert).map Alert.kind ≠
          some AlertKind.down) ∧
      (3 ≤ 2 + 1 → (⟨Status.down, 3, 0, 7, 7⟩ : Entry).status = Status.down)) :=
  ⟨by decide, by decide, rfl, rfl, by decide, by decide,
    C1_threshold_alert ⟨3, 10, "v2"⟩ "u" 3 (by decide) (by decide) empty_entry rfl rfl
      [("a", 5), ("b", 6), ("c", 7), ("d", 8)] 2
      ((⟨Status.down, 3, 0, 7, 7⟩ : Entry), some { kind := AlertKind.down, text := "c" })
      ("c", 7) (by decide) (by decide)⟩

/-- Lookup after an association-list update. -/
theorem lookupEntry_setEntry (m : List (String × Entry)) (k u : String) (v : Entry) :
    lookupEntry (setEntry m k v) u = if k = u then some v else lookupEntry m u := by
  induction m with
  | nil =>
    simp [setEntry, lookupEntry]
  | cons q rest ih =>
    obtain ⟨a, b⟩ := q
    by_cases hak : a = k
    · subst hak
      by_cases hau : a = u <;> simp [setEntry, lookupEntry, hau]
    · by_cases hau : a = u
      · subst hau
        have hku : ¬ k = a := fun h => hak h.symm
        simp [setEntry, lookupEntry, hak, hku]
      · simp [setEntry, lookupEntry, hak, hau, ih]

/-- The entry stored for `u` by the per-URL loop: determined solely by the
configured URL list, `u`'s entry in the loaded state, `u`'s probe outcome
and the run's clock; URLs outside the list are left to the accumulator. -/
theorem runLoop_lookup (cfg : Config) (prev : List (String × Entry))
    (probe : String → Bool × String) (now : Int) :
    ∀ (urls : List String) (st : LoopState) (u : String),
      lookupEntry (runLoop cfg prev probe now urls st).curr u =
        if u ∈ urls then
          some (transition cfg u ((lookupEntry prev u).getD empty_entry)
            (probe u).1 (probe u).2 now).1
        else lookupEntry st.curr u := by
  intro urls
  induction urls with
  | nil =>
    intro st u
    simp [runLoop]
  | cons v rest ih =>
    intro st u
    simp only [runLoop]
    rw [ih]
    by_cases hur : u ∈ rest
    · simp [hur]
    · by_cases hvu : v = u
      · subst hvu
        simp [processUrl, lookupEntry_setEntry, hur]
      · have huv : ¬ u = v := fun h => hvu h.symm
        simp [processUrl, lookupEntry_setEntry, hvu, hur, huv]

/-- With at least one configured URL, `main` writes exactly the snapshot of
the loop's final mapping. -/
theorem main_written (cfg : Config) (urls : List String) (file : FileRead)
    (probe : String → Bool × String) (now saveTime : Int) (hne : urls ≠ []) :
    (main cfg urls file probe now saveTime).written =
      some (save_state cfg saveTime (runCurr cfg urls file probe now)) := by
  simp [main, hne, runCurr]

/-- What the written snapshot holds for each URL. -/
theorem snapLookup_main (cfg : Config) (urls : List String) (file : FileRead)
    (probe : String → Bool × String) (now saveTime : Int) (u : String) (hne : urls ≠ []) :
    snapLookup (main cfg urls file probe now saveTime) u =
      if u ∈ urls then
        some (transition cfg u ((lookupEntry (load_state cfg file) u).getD empty_entry)
          (probe u).1 (probe u).2 now).1
      else none := by
  rw [snapLookup, main_written cfg urls file probe now saveTime hne]
  simp only [save_state]
  rw [runCurr, runLoop_lookup]
  simp [lookupEntry]

/-- Loading the file a run just wrote yields exactly the mapping it
saved (the schema tag matches by construction). -/
theorem load_secondRunFile (cfg : Config) (urls : List String) (file : FileRead)
    (probe : String → Bool × String) (now saveTime : Int) (hne : urls ≠ []) :
    load_state cfg (secondRunFile (main cfg urls file probe now saveTime)) =
      runCurr cfg urls file probe now := by
  rw [secondRunFile, main_written cfg urls file probe now saveTime hne]
  simp [load_state, save_state]

/-- A successful probe always leaves the entry UP with a zero failure
count. -/
theorem transition_ok_shape (cfg : Config) (u : String) (e : Entry) (msg : String) (now : Int) :
    (transition cfg u e true msg now).1.fail = 0 ∧
    (transition cfg u e true msg now).1.status = Status.up := by
  cases hs : e.status with
  | up =>
    rw [transition_ok_up cfg u e msg now hs]
    exact ⟨rfl, hs⟩
  | down =>
    rw [transition_ok_down cfg u e msg now hs]
    exact ⟨rfl, rfl⟩

/-- A successful probe on an UP entry with zero failures only increments
the success counter. -/
theorem transition_ok_of_clean (cfg : Config) (u : String) (e : Entry) (msg : String)
    (now : Int) (hs : e.status = Status.up) (hf : e.fail = 0) :
    (transition cfg u e true msg now).1 = { e with ok := e.ok + 1 } := by
  rw [transition_ok_up cfg u e msg now hs]
  obtain ⟨s, f, o, lc, la⟩ := e
  simp only at hf
  subst hf
  rfl

/-- The loop's result depends on the loaded state only through the entries
of the configured URLs: stale entries are inert. -/
theorem runLoop_congr (cfg : Config) (p1 p2 : List (String × Entry))
    (probe : String → Bool × String) (now : Int) :
    ∀ (urls : List String) (st : LoopState),
      (∀ w ∈ urls, lookupEntry p1 w = lookupEntry p2 w) →
      runLoop cfg p1 probe now urls st = runLoop cfg p2 probe now urls st := by
  intro urls
  induction urls with
  | nil =>
    intro st _
    rfl
  | cons w rest ih =>
    intro st hag
    simp only [runLoop]
    have hw : lookupEntry p1 w = lookupEntry p2 w := hag w (by simp)
    have hst : processUrl cfg p1 probe now st w = processUrl cfg p2 probe now st w := by
      simp [processUrl, hw]
    rw [hst]
    exact ih _ (fun x hx => hag x (by simp [hx]))

/-- C2 (as stated, refuted): the recovery alert's text is not
`"<url> recovered"`; for url `"x"` the code emits
`"x recovered ✅"`, which differs from `"x recovered"`. -/
theorem C2_counterexample :
    (transition ⟨1, 10, "v2"⟩ "x" ⟨Status.down, 2, 0, 0, 0⟩ true "m" 5).2 ≠
      some { kind := AlertKind.recovery, text := "x recovered" } ∧
    (transition ⟨1, 10, "v2"⟩ "x" ⟨Status.down, 2, 0, 0, 0⟩ true "m" 5).2 =
      some { kind := AlertKind.recovery, text := "x recovered ✅" } := by
  constructor
  · decide
  · decide

/-- C2 (amended): for every entry with status DOWN, a single successful
probe sets status to UP and lastChangeTime to now, and emits exactly one
RECOVERY alert whose text is `"<url> recovered ✅"`, regardless of the
consecutive-failure count before the probe. -/
theorem C2_recovery (cfg : Config) (u : String) (e : Entry) (msg : String) (now : Int)
    (hd : e.status = Status.down) :
    transition cfg u e true msg now =
      ({ e with ok := e.ok + 1, fail := 0, status := Status.up, last_change := now },
        some { kind := AlertKind.recovery, text := u ++ " recovered ✅" }) :=
  transition_ok_down cfg u e msg now hd

/-- Witness for C2 at a concrete DOWN entry. -/
theorem C2_recovery_witness :
    (⟨Status.down, 5, 0, 2, 3⟩ : Entry).status = Status.down ∧
    transition ⟨1, 10, "v2"⟩ "x" ⟨Status.down, 5, 0, 2, 3⟩ true "m" 9 =
      ((⟨Status.up, 0, 0 + 1, 9, 3⟩ : Entry),
        some { kind := AlertKind.recovery, text := "x" ++ " recovered ✅" }) :=
  ⟨rfl, C2_recovery ⟨1, 10, "v2"⟩ "x" ⟨Status.down, 5, 0, 2, 3⟩ "m" 9 rfl⟩

/-- C3: for a DOWN entry and a failed probe, the reminder (text = probe
message + " (still down)", lastDownAlertTime stamped to now) fires exactly
when `REMIND_MIN > 0` and `now - lastDownAlertTime ≥ REMIND_MIN * 60`;
otherwise nothing is emitted and the alert time is untouched. In
particular `REMIND_MIN = 0` never emits a reminder, while an UP entry at
the threshold still gets its DOWN alert whatever `REMIND_MIN` is. -/
theorem C3_reminder_iff (cfg : Config) (u : String) (e e2 : Entry) (msg : String) (now : Int)
    (hd : e.status = Status.down) (h2 : e2.status = Status.up)
    (h2f : ((e2.fail + 1 : Nat) : Int) ≥ cfg.failureThreshold) :
    ((cfg.remindMin > 0 ∧ now - e.last_down_alert ≥ cfg.remindMin * 60) →
      transition cfg u e false msg now =
        ({ e with fail := e.fail + 1, ok := 0, last_down_alert := now },
          some { kind := AlertKind.reminder, text := msg ++ " (still down)" })) ∧
    (¬ (cfg.remindMin > 0 ∧ now - e.last_down_alert ≥ cfg.remindMin * 60) →
      transition cfg u e false msg now = ({ e with fail := e.fail + 1, ok := 0 }, none)) ∧
    (transition cfg u e2 false msg now).2 = some { kind := AlertKind.down, text := msg } := by
  refine ⟨fun hc => transition_fail_down_remind cfg u e msg now hd hc,
    fun hc => transition_fail_down_quiet cfg u e msg now hd hc, ?_⟩
  rw [transition_fail_up_hit cfg u e2 msg now h2 h2f]

/-- Witness for C3 with reminders disabled (`REMIND_MIN = 0`). -/
theorem C3_reminder_iff_witness :
    (⟨Status.down, 1, 0, 0, 0⟩ : Entry).status = Status.down ∧
    empty_entry.status = Status.up ∧
    ((empty_entry.fail + 1 : Nat) : Int) ≥ (⟨1, 0, "v2"⟩ : Config).failureThreshold ∧
    ((((⟨1, 0, "v2"⟩ : Config).remindMin > 0 ∧
        700 - (⟨Status.down, 1, 0, 0, 0⟩ : Entry).last_down_alert ≥
          (⟨1, 0, "v2"⟩ : Config).remindMin * 60) →
      transition ⟨1, 0, "v2"⟩ "u" ⟨Status.down, 1, 0, 0, 0⟩ false "m" 700 =
        ({ (⟨Status.down, 1, 0, 0, 0⟩ : Entry) with fail := 1 + 1, ok := 0, last_down_alert := 700 },
          some { kind := AlertKind.reminder, text := "m" ++ " (still down)" })) ∧
    (¬ ((⟨1, 0, "v2"⟩ : Config).remindMin > 0 ∧
        700 - (⟨Status.down, 1, 0, 0, 0⟩ : Entry).last_down_alert ≥
          (⟨1, 0, "v2"⟩ : Config).remindMin * 60) →
      transition ⟨1, 0, "v2"⟩ "u" ⟨Status.down, 1, 0, 0, 0⟩ false "m" 700 =
        ({ (⟨Status.down, 1, 0, 0, 0⟩ : Entry) with fail := 1 + 1, ok := 0 }, none)) ∧
    (transition ⟨1, 0, "v2"⟩ "u" empty_entry false "m" 700).2 =
      some { kind := AlertKind.down, text := "m" }) :=
  ⟨rfl, rfl, by decide,
    C3_reminder_iff ⟨1, 0, "v2"⟩ "u" ⟨Status.down, 1, 0, 0, 0⟩ empty_entry "m" 700 rfl rfl (by decide)⟩

/-- C4: after one application of the transition, exactly one of the
consecutive counters is nonzero and the other is zero; both counters are
zero in the freshly created default entry. -/
theorem C4_counter_invariant (cfg : Config) (u : String) (e : Entry) (b : Bool)
    (msg : String) (now : Int) :
    (((transition cfg u e b msg now).1.fail = 0 ∧ (transition cfg u e b msg now).1.ok ≠ 0) ∨
      ((transition cfg u e b msg now).1.fail ≠ 0 ∧ (transition cfg u e b msg now).1.ok = 0)) ∧
    empty_entry.fail = 0 ∧ empty_entry.ok = 0 := by
  refine ⟨?_, rfl, rfl⟩
  cases b with
  | false =>
    cases hs : e.status with
    | up =>
      by_cases hth : ((e.fail + 1 : Nat) : Int) ≥ cfg.failureThreshold
      · rw [transition_fail_up_hit cfg u e msg now hs hth]
        exact Or.inr ⟨Nat.succ_ne_zero _, rfl⟩
      · rw [transition_fail_up_miss cfg u e msg now hs hth]
        exact Or.inr ⟨Nat.succ_ne_zero _, rfl⟩
    | down =>
      by_cases hc : cfg.remindMin > 0 ∧ now - e.last_down_alert ≥ cfg.remindMin * 60
      · rw [transition_fail_down_remind cfg u e msg now hs hc]
        exact Or.inr ⟨Nat.succ_ne_zero _, rfl⟩
      · rw [transition_fail_down_quiet cfg u e msg now hs hc]
        exact Or.inr ⟨Nat.succ_ne_zero _, rfl⟩
  | true =>
    cases hs : e.status with
    | up =>
      rw [transition_ok_up cfg u e msg now hs]
      exact Or.inl ⟨rfl, Nat.succ_ne_zero _⟩
    | down =>
      rw [transition_ok_down cfg u e msg now hs]
      exact Or.inl ⟨rfl, Nat.succ_ne_zero _⟩

/-- Witness for C4 at a concrete entry and probe. -/
theorem C4_counter_invariant_witness :
    (((transition ⟨2, 10, "v2"⟩ "u" empty_entry false "m" 7).1.fail = 0 ∧
        (transition ⟨2, 10, "v2"⟩ "u" empty_entry false "m" 7).1.ok ≠ 0) ∨
      ((transition ⟨2, 10, "v2"⟩ "u" empty_entry false "m" 7).1.fail ≠ 0 ∧
        (transition ⟨2, 10, "v2"⟩ "u" empty_entry false "m" 7).1.ok = 0)) ∧
    empty_entry.fail = 0 ∧ empty_entry.ok = 0 :=
  C4_counter_invariant ⟨2, 10, "v2"⟩ "u" empty_entry false "m" 7

/-- C5: one transition changes `last_change` only when the status actually
transitions, and changes `last_down_alert` only when a DOWN alert or a
reminder is emitted by that same transition. -/
theorem C5_frame (cfg : Config) (u : String) (e : Entry) (b : Bool) (msg : String) (now : Int) :
    ((transition cfg u e b msg now).1.last_change ≠ e.last_change →
      (transition cfg u e b msg now).1.status ≠ e.status) ∧
    ((transition cfg u e b msg now).1.last_down_alert ≠ e.last_down_alert →
      (transition cfg u e b msg now).2.map Alert.kind = some AlertKind.down ∨
        (transition cfg u e b msg now).2.map Alert.kind = some AlertKind.reminder) := by
  cases b with
  | false =>
    cases hs : e.status with
    | up =>
      by_cases hth : ((e.fail + 1 : Nat) : Int) ≥ cfg.failureThreshold
      · rw [transition_fail_up_hit cfg u e msg now hs hth]
        exact ⟨fun _ => by simp [hs], fun _ => Or.inl rfl⟩
      · rw [transition_fail_up_miss cfg u e msg now hs hth]
        exact ⟨fun h => absurd rfl h, fun h => absurd rfl h⟩
    | down =>
      by_cases hc : cfg.remindMin > 0 ∧ now - e.last_down_alert ≥ cfg.remindMin * 60
      · rw [transition_fail_down_remind cfg u e msg now hs hc]
        exact ⟨fun h => absurd rfl h, fun _ => Or.inr rfl⟩
      · rw [transition_fail_down_quiet cfg u e msg now hs hc]
        exact ⟨fun h => absurd rfl h, fun h => absurd rfl h⟩
  | true =>
    cases hs : e.status with
    | up =>
      rw [transition_ok_up cfg u e msg now hs]
      exact ⟨fun h => absurd rfl h, fun h => absurd rfl h⟩
    | down =>
      rw [transition_ok_down cfg u e msg now hs]
      exact ⟨fun _ => by simp [hs], fun h => absurd rfl h⟩

/-- Witness for C5 at a concrete entry and probe. -/
theorem C5_frame_witness :
    ((transition ⟨1, 10, "v2"⟩ "u" empty_entry false "m" 7).1.last_change ≠
        empty_entry.last_change →
      (transition ⟨1, 10, "v2"⟩ "u" empty_entry false "m" 7).1.status ≠ empty_entry.status) ∧
    ((transition ⟨1, 10, "v2"⟩ "u" empty_entry false "m" 7).1.last_down_alert ≠
        empty_entry.last_down_alert →
      (transition ⟨1, 10, "v2"⟩ "u" empty_entry false "m" 7).2.map Alert.kind =
          some AlertKind.down ∨
        (transition ⟨1, 10, "v2"⟩ "u" empty_entry false "m" 7).2.map Alert.kind =
          some AlertKind.reminder) :=
  C5_frame ⟨1, 10, "v2"⟩ "u" empty_entry false "m" 7

/-- C6: a missing, unreadable or malformed state file, and a parsed state
file whose `_schema` differs from the configured version, all load as the
empty mapping; `load_state` is total, so state errors are never fatal. -/
theorem C6_state_errors (cfg : Config) (d : StateData)
    (hmis : d.schema ≠ some cfg.schemaVersion) :
    load_state cfg FileRead.failure = [] ∧ load_state cfg (FileRead.success d) = [] := by
  refine ⟨rfl, ?_⟩
  simp [load_state, hmis]

/-- Witness for C6 with a concrete schema mismatch. -/
theorem C6_state_errors_witness :
    (⟨some "v1", some [("a", empty_entry)]⟩ : StateData).schema ≠
      some (⟨1, 10, "v2"⟩ : Config).schemaVersion ∧
    (load_state ⟨1, 10, "v2"⟩ FileRead.failure = [] ∧
      load_state ⟨1, 10, "v2"⟩ (FileRead.success ⟨some "v1", some [("a", empty_entry)]⟩) = []) :=
  ⟨by decide, C6_state_errors ⟨1, 10, "v2"⟩ ⟨some "v1", some [("a", empty_entry)]⟩ (by decide)⟩

/-- C10: when the clock moved backward (`now` earlier than the last down
alert time) and `REMIND_MIN > 0`, a failed probe on a DOWN entry emits
nothing and leaves `last_down_alert` unchanged. -/
theorem C10_clock_backward (cfg : Config) (u : String) (e : Entry) (msg : String) (now : Int)
    (hd : e.status = Status.down) (hr : cfg.remindMin > 0)
    (hn : now < e.last_down_alert) :
    (transition cfg u e false msg now).2 = none ∧
    (transition cfg u e false msg now).1.last_down_alert = e.last_down_alert := by
  have hc : ¬ (cfg.remindMin > 0 ∧ now - e.last_down_alert ≥ cfg.remindMin * 60) := by
    rintro ⟨h60, hge⟩
    omega
  rw [transition_fail_down_quiet cfg u e msg now hd hc]
  exact ⟨rfl, rfl⟩

/-- Witness for C10 with a concrete backward clock step. -/
theorem C10_clock_backward_witness :
    (⟨Status.down, 1, 0, 50, 100⟩ : Entry).status = Status.down ∧
    (⟨1, 10, "v2"⟩ : Config).remindMin > 0 ∧
    (60 : Int) < (⟨Status.down, 1, 0, 50, 100⟩ : Entry).last_down_alert ∧
    ((transition ⟨1, 10, "v2"⟩ "u" ⟨Status.down, 1, 0, 50, 100⟩ false "m" 60).2 = none ∧
      (transition ⟨1, 10, "v2"⟩ "u" ⟨Status.down, 1, 0, 50, 100⟩ false "m" 60).1.last_down_alert =
        (⟨Status.down, 1, 0, 50, 100⟩ : Entry).last_down_alert) :=
  ⟨rfl, by decide, by decide,
    C10_clock_backward ⟨1, 10, "v2"⟩ "u" ⟨Status.down, 1, 0, 50, 100⟩ "m" 60 rfl (by decide) (by decide)⟩

/-- C7: with an empty URL list the run exits with code 2, writes no state
file and probes nothing; with a nonempty list it writes the snapshot and
exits 1 exactly when some post-run entry is DOWN, 0 otherwise. -/
theorem C7_exit_codes (cfg : Config) (urls : List String) (file : FileRead)
    (probe : String → Bool × String) (now saveTime : Int) :
    (urls = [] →
      (main cfg urls file probe now saveTime).exitCode = 2 ∧
      (main cfg urls file probe now saveTime).written = none ∧
      (main cfg urls file probe now saveTime).probed = []) ∧
    (urls ≠ [] →
      (main cfg urls file probe now saveTime).written ≠ none ∧
      (main cfg urls file probe now saveTime).exitCode =
        (if snapHasDown (main cfg urls file probe now saveTime).written then 1 else 0)) := by
  by_cases hne : urls = []
  · subst hne
    exact ⟨fun _ => ⟨rfl, rfl, rfl⟩, fun h => absurd rfl h⟩
  · refine ⟨fun h => absurd h hne, fun _ => ⟨?_, ?_⟩⟩
    · simp [main, hne]
    · rw [main_written cfg urls file probe now saveTime hne]
      simp [main, hne, snapHasDown, save_state, runCurr]

/-- Witness for C7: one UP and one DOWN URL give exit code 1; the empty
branch is vacuous. -/
theorem C7_exit_codes_witness :
    ((["a", "b"] : List String) = [] →
      (main ⟨1, 10, "v2"⟩ ["a", "b"] FileRead.failure probeMixed 100 101).exitCode = 2 ∧
      (main ⟨1, 10, "v2"⟩ ["a", "b"] FileRead.failure probeMixed 100 101).written = none ∧
      (main ⟨1, 10, "v2"⟩ ["a", "b"] FileRead.failure probeMixed 100 101).probed = []) ∧
    ((["a", "b"] : List String) ≠ [] →
      (main ⟨1, 10, "v2"⟩ ["a", "b"] FileRead.failure probeMixed 100 101).written ≠ none ∧
      (main ⟨1, 10, "v2"⟩ ["a", "b"] FileRead.failure probeMixed 100 101).exitCode =
        (if snapHasDown (main ⟨1, 10, "v2"⟩ ["a", "b"] FileRead.failure probeMixed 100 101).written
          then 1 else 0)) :=
  C7_exit_codes ⟨1, 10, "v2"⟩ ["a", "b"] FileRead.failure probeMixed 100 101

/-- C8 (as stated, refuted): two runs with identical probe outcomes do not
produce byte-identical `urls` content: with one URL succeeding in both
runs, the consecutive-success counter differs between the two written
snapshots. -/
theorem C8_counterexample :
    ((main ⟨1, 10, "v2"⟩ ["a"]
        (secondRunFile (main ⟨1, 10, "v2"⟩ ["a"] FileRead.failure probeAllOk 100 100))
        probeAllOk 200 200).written.map Snapshot.urls) ≠
      ((main ⟨1, 10, "v2"⟩ ["a"] FileRead.failure probeAllOk 100 100).written.map Snapshot.urls) := by
  decide

/-- C8 (amended): a second run with identical probe outcomes writes a
snapshot with the same URL keys; a URL whose probe succeeds keeps its
entry except the success counter increments, and a URL that stays DOWN on
a failing probe keeps status and `last_change`, increments the failure
counter, and moves `last_down_alert` at most to the second run's time —
the `urls` content is not byte-identical in general. -/
theorem C8_second_run (cfg : Config) (urls : List String) (file : FileRead)
    (probe : String → Bool × String) (now1 save1 now2 save2 : Int) (u v : String)
    (e1 e2 : Entry) (hne : urls ≠ [])
    (h1 : snapLookup (main cfg urls file probe now1 save1) u = some e1)
    (h2 : snapLookup (main cfg urls (secondRunFile (main cfg urls file probe now1 save1))
        probe now2 save2) u = some e2) :
    (snapLookup (main cfg urls (secondRunFile (main cfg urls file probe now1 save1))
        probe now2 save2) v).isSome =
      (snapLookup (main cfg urls file probe now1 save1) v).isSome ∧
    ((probe u).1 = true → e2 = { e1 with ok := e1.ok + 1 }) ∧
    ((probe u).1 = false → e1.status = Status.down →
      e2.fail = e1.fail + 1 ∧ e2.ok = 0 ∧ e2.status = e1.status ∧
      e2.last_change = e1.last_change ∧
      (e2.last_down_alert = e1.last_down_alert ∨ e2.last_down_alert = now2)) := by
  have hload := load_secondRunFile cfg urls file probe now1 save1 hne
  have hs1u := snapLookup_main cfg urls file probe now1 save1 u hne
  have hs2u := snapLookup_main cfg urls
    (secondRunFile (main cfg urls file probe now1 save1)) probe now2 save2 u hne
  rw [hload] at hs2u
  have hu : u ∈ urls := by
    by_contra hcontra
    rw [hs1u, if_neg hcontra] at h1
    exact Option.noConfusion h1
  rw [hs1u, if_pos hu] at h1
  rw [hs2u, if_pos hu] at h2
  have hcurr : lookupEntry (runCurr cfg urls file probe now1) u = some e1 := by
    rw [runCurr, runLoop_lookup, if_pos hu]
    exact h1
  rw [hcurr] at h2
  simp only [Option.getD_some] at h2
  have he1 := Option.some.inj h1
  have he2 := Option.some.inj h2
  refine ⟨?_, ?_, ?_⟩
  · have hs1v := snapLookup_main cfg urls file probe now1 save1 v hne
    have hs2v := snapLookup_main cfg urls
      (secondRunFile (main cfg urls file probe now1 save1)) probe now2 save2 v hne
    rw [hload] at hs2v
    rw [hs1v, hs2v]
    by_cases hv : v ∈ urls <;> simp [hv]
  · intro hok
    rw [hok] at he1 he2
    have hshape := transition_ok_shape cfg u
      ((lookupEntry (load_state cfg file) u).getD empty_entry) (probe u).2 now1
    rw [he1] at hshape
    have hclean := transition_ok_of_clean cfg u e1 (probe u).2 now2 hshape.2 hshape.1
    rw [← he2, hclean]
  · intro hfl hdown
    rw [hfl] at he2
    have hfacts := transition_fail_down_facts cfg u e1 (probe u).2 now2 hdown
    rw [he2] at hfacts
    exact ⟨hfacts.2.1, hfacts.2.2.1, hfacts.1.trans hdown.symm,
      hfacts.2.2.2.1, hfacts.2.2.2.2.1⟩

/-- Witness for C8 (amended) at a concrete pair of back-to-back runs. -/
theorem C8_second_run_witness :
    (["a"] : List String) ≠ [] ∧
    snapLookup (main ⟨1, 10, "v2"⟩ ["a"] FileRead.failure probeAllOk 100 100) "a" =
      some (⟨Status.up, 0, 1, 0, 0⟩ : Entry) ∧
    snapLookup (main ⟨1, 10, "v2"⟩ ["a"]
        (secondRunFile (main ⟨1, 10, "v2"⟩ ["a"] FileRead.failure probeAllOk 100 100))
        probeAllOk 200 200) "a" =
      some (⟨Status.up, 0, 2, 0, 0⟩ : Entry) ∧
    ((snapLookup (main ⟨1, 10, "v2"⟩ ["a"]
        (secondRunFile (main ⟨1, 10, "v2"⟩ ["a"] FileRead.failure probeAllOk 100 100))
        probeAllOk 200 200) "b").isSome =
      (snapLookup (main ⟨1, 10, "v2"⟩ ["a"] FileRead.failure probeAllOk 100 100) "b").isSome ∧
    ((probeAllOk "a").1 = true →
      (⟨Status.up, 0, 2, 0, 0⟩ : Entry) =
        { (⟨Status.up, 0, 1, 0, 0⟩ : Entry) with ok := 1 + 1 }) ∧
    ((probeAllOk "a").1 = false → (⟨Status.up, 0, 1, 0, 0⟩ : Entry).status = Status.down →
      (⟨Status.up, 0, 2, 0, 0⟩ : Entry).fail = 0 + 1 ∧
      (⟨Status.up, 0, 2, 0, 0⟩ : Entry).ok = 0 ∧
      (⟨Status.up, 0, 2, 0, 0⟩ : Entry).status = (⟨Status.up, 0, 1, 0, 0⟩ : Entry).status ∧
      (⟨Status.up, 0, 2, 0, 0⟩ : Entry).last_change =
        (⟨Status.up, 0, 1, 0, 0⟩ : Entry).last_change ∧
      ((⟨Status.up, 0, 2, 0, 0⟩ : Entry).last_down_alert =
          (⟨Status.up, 0, 1, 0, 0⟩ : Entry).last_down_alert ∨
        (⟨Status.up, 0, 2, 0, 0⟩ : Entry).last_down_alert = 200))) :=
  ⟨by decide, by decide, by decide,
    C8_second_run ⟨1, 10, "v2"⟩ ["a"] FileRead.failure probeAllOk 100 100 200 200 "a" "b"
      ⟨Status.up, 0, 1, 0, 0⟩ ⟨Status.up, 0, 2, 0, 0⟩ (by decide) (by decide) (by decide)⟩

/-- C9: the snapshot a run writes contains exactly the configured URLs
(a URL removed from configuration stops being written); each configured
URL's saved entry is computed solely from its own loaded entry (defaulted)
and its probe; and two loaded states agreeing on the configured URLs give
identical run results, so stale entries are inert. -/
theorem C9_stale_entries (cfg : Config) (urls : List String) (f1 f2 : FileRead)
    (probe : String → Bool × String) (now saveTime : Int) (u v : String)
    (hne : urls ≠ []) (hu : u ∈ urls)
    (hagree : ∀ w ∈ urls, lookupEntry (load_state cfg f1) w = lookupEntry (load_state cfg f2) w) :
    ((snapLookup (main cfg urls f1 probe now saveTime) v).isSome ↔ v ∈ urls) ∧
    snapLookup (main cfg urls f1 probe now saveTime) u =
      some (transition cfg u ((lookupEntry (load_state cfg f1) u).getD empty_entry)
        (probe u).1 (probe u).2 now).1 ∧
    main cfg urls f1 probe now saveTime = main cfg urls f2 probe now saveTime := by
  refine ⟨?_, ?_, ?_⟩
  · rw [snapLookup_main cfg urls f1 probe now saveTime v hne]
    by_cases hv : v ∈ urls <;> simp [hv]
  · rw [snapLookup_main cfg urls f1 probe now saveTime u hne, if_pos hu]
  · have hcong := runLoop_congr cfg (load_state cfg f1) (load_state cfg f2) probe now urls
      { curr := [], down_alerts := [], recover_alerts := [] } hagree
    simp only [main, if_neg hne]
    rw [hcong]

/-- Witness for C9: a stale entry "b" in the loaded state is dropped from
the written snapshot and has no effect on the run. -/
theorem C9_stale_entries_witness :
    (["a"] : List String) ≠ [] ∧
    "a" ∈ (["a"] : List String) ∧
    (∀ w ∈ (["a"] : List String),
      lookupEntry (load_state ⟨1, 10, "v2"⟩
        (FileRead.success ⟨some "v2", some [("a", empty_entry), ("b", ⟨Status.down, 9, 0, 1, 2⟩)]⟩)) w =
      lookupEntry (load_state ⟨1, 10, "v2"⟩
        (FileRead.success ⟨some "v2", some [("a", empty_entry)]⟩)) w) ∧
    (((snapLookup (main ⟨1, 10, "v2"⟩ ["a"]
        (FileRead.success ⟨some "v2", some [("a", empty_entry), ("b", ⟨Status.down, 9, 0, 1, 2⟩)]⟩)
        probeAllFail 100 101) "b").isSome ↔ "b" ∈ (["a"] : List String)) ∧
    snapLookup (main ⟨1, 10, "v2"⟩ ["a"]
        (FileRead.success ⟨some "v2", some [("a", empty_entry), ("b", ⟨Status.down, 9, 0, 1, 2⟩)]⟩)
        probeAllFail 100 101) "a" =
      some (transition ⟨1, 10, "v2"⟩ "a"
        ((lookupEntry (load_state ⟨1, 10, "v2"⟩
          (FileRead.success ⟨some "v2", some [("a", empty_entry), ("b", ⟨Status.down, 9, 0, 1, 2⟩)]⟩)) "a").getD empty_entry)
        (probeAllFail "a").1 (probeAllFail "a").2 100).1 ∧
    main ⟨1, 10, "v2"⟩ ["a"]
        (FileRead.success ⟨some "v2", some [("a", empty_entry), ("b", ⟨Status.down, 9, 0, 1, 2⟩)]⟩)
        probeAllFail 100 101 =
      main ⟨1, 10, "v2"⟩ ["a"] (FileRead.success ⟨some "v2", some [("a", empty_entry)]⟩)
        probeAllFail 100 101) :=
  ⟨by decide, by decide, by decide,
    C9_stale_entries ⟨1, 10, "v2"⟩ ["a"]
      (FileRead.success ⟨some "v2", some [("a", empty_entry), ("b", ⟨Status.down, 9, 0, 1, 2⟩)]⟩)
      (FileRead.success ⟨some "v2", some [("a", empty_entry)]⟩)
      probeAllFail 100 101 "a" "b" (by decide) (by decide) (by decide)⟩

end UptimeMonitor
